import Mathlib

/-!
Verification development for the array-column subsystem of the
elasticsearch-dbapi driver (`es/mkelastic/api.py`).

The Python source is shallowly embedded below: JSON-like runtime values
become the inductive `Value`; the cursor's mutable fields become the
explicit record `CursorState`; every call that can raise a Python
exception returns in `Except PyErr`; the responses of the external
cluster (an out-of-scope collaborator) are packaged in an `Env` record.
-/

/-- Models CPython `str.lower` on a single ASCII character.  Non-ASCII
case folding is not exercised by any statement handled here. -/
def lowerChar (c : Char) : Char :=
  if 'A' ≤ c ∧ c ≤ 'Z' then Char.ofNat (c.toNat + 32) else c

/-- Models CPython `str.lower` (ASCII fragment). -/
def pyLower (s : String) : String :=
  ⟨s.data.map lowerChar⟩

/-- Character-list test that the first list starts the second; used to
model `re.match` against a literal pattern. -/
def leadsWith : List Char → List Char → Bool
  | [], _ => true
  | _ :: _, [] => false
  | p :: ps, c :: cs => p == c && leadsWith ps cs

/-- Substring occurrence test on character lists, used to model the
Python `in` operator on strings. -/
def subList (pat : List Char) : List Char → Bool
  | [] => pat.isEmpty
  | c :: rest => leadsWith pat (c :: rest) || subList pat rest

/-- Models the Python expression `pat in s` for strings. -/
def strContains (s pat : String) : Bool :=
  subList pat.data s.data

/-- JSON-like runtime values of the driver: the shapes a parsed
Elasticsearch response can take. -/
inductive Value where
  | null : Value
  | bool : Bool → Value
  | int : Int → Value
  | str : String → Value
  | list : List Value → Value
  | dict : List (String × Value) → Value

/-- A Python dict with string keys, as an association list in insertion
order (JSON objects have unique keys). -/
abbrev PyDict := List (String × Value)

/-- Models Python `d.get(k)` on a string-keyed dict. -/
def lookupD (d : PyDict) (k : String) : Option Value :=
  match d.find? (fun kv => kv.1 == k) with
  | some kv => some kv.2
  | none => none

/-- Embedding of the `ESType` enum of `api.py` (line 79), which extends
the base `Type` enum of `baseapi` with an `ARRAY` member.  Only the
members the embedded code ever produces or compares are listed together
with the base members named by the spec's data model. -/
inductive ESType where
  | STRING
  | NUMBER
  | BOOLEAN
  | DATETIME
  | ARRAY
deriving DecidableEq

/-- Embedding of `ESType.from_es_type` (api.py lines 83-89).  The source
body is literally `if is_array: return cls.ARRAY` followed by a comment
`# Existing type mapping logic...` and `return cls.STRING`, so every
non-array raw type maps to STRING. -/
def ESType.from_es_type (es_type : String) (is_array : Bool) : ESType :=
  if is_array then ESType.ARRAY else ESType.STRING

/-- Embedding of `CursorDescriptionRow` as constructed in `api.py`: a
7-field DBAPI description entry; the source always passes `None` for
the last five fields. -/
structure CursorDescriptionRow where
  name : String
  type_code : ESType
  display_size : Option Nat
  internal_size : Option Nat
  precision : Option Nat
  scale : Option Nat
  null_ok : Option Bool
deriving DecidableEq

/-- One element of the `columns` list of a SQL endpoint response: a JSON
object from which the code reads the optional keys `name` and `type`. -/
structure ESCol where
  name? : Option String
  type? : Option String

/-- Embedding of `get_description_from_columns_with_arrays` (api.py
lines 91-110): `type_code` comes from the Type Mapper, with array-ness
decided by `"array" in column.get("type", "").lower()`. -/
def get_description_from_columns_with_arrays (columns : List ESCol) : List CursorDescriptionRow :=
  columns.map fun column =>
    { name := column.name?.getD ""
      type_code := ESType.from_es_type (column.type?.getD "string")
        (strContains (pyLower (column.type?.getD "")) "array")
      display_size := none
      internal_size := none
      precision := none
      scale := none
      null_ok := none }

/-- Python exceptions reachable in the embedded code: `DataError`
(api.py line 218), `TypeError` from `dict(item)` on a non-mapping,
`IndexError` from subscripting past the end, and the closed-cursor
error raised by the `check_closed` decorator. -/
inductive PyErr where
  | dataError : String → PyErr
  | typeError : PyErr
  | indexError : PyErr
  | closedError : PyErr
deriving DecidableEq

/-- Left-to-right effectful map, modelling a Python list comprehension
whose body can raise: the first exception aborts the whole expression. -/
def mapEx {α β : Type} (f : α → Except PyErr β) : List α → Except PyErr (List β)
  | [] => .ok []
  | a :: as => do
      let b ← f a
      let bs ← mapEx f as
      .ok (b :: bs)

/-- Models the CPython call `dict(item)`: on a dict it allocates a fresh
shallow copy (structurally identical); on the other JSON value shapes
(null, bool, int, str) it raises TypeError.  CPython would also accept
a list of key/value pairs; that shape is not produced by Elasticsearch
responses and is conservatively mapped to the error case as well. -/
def dictCtor : Value → Except PyErr Value
  | .dict d => .ok (.dict d)
  | _ => .error .typeError

/-- Embedding of `Cursor._process_array_value` (api.py lines 126-133):
a non-list is returned unchanged; an empty list is falsy and returned
unchanged; a list whose first element is a dict is rebuilt as
`[dict(item) for item in value]`; any other list is returned unchanged. -/
def process_array_value : Value → Except PyErr Value
  | .list [] => .ok (.list [])
  | .list (v :: vs) =>
      match v with
      | .dict _ => do
          let copies ← mapEx dictCtor (v :: vs)
          .ok (.list copies)
      | _ => .ok (.list (v :: vs))
  | v => .ok v

/-- The per-position body of `Cursor._process_row`: an ARRAY-typed
position goes through `process_array_value`, any other position passes
through unchanged. -/
def procCells : List (Value × CursorDescriptionRow) → Except PyErr (List Value)
  | [] => .ok []
  | (v, c) :: rest => do
      let v' ← if c.type_code = ESType.ARRAY then process_array_value v else .ok v
      let rest' ← procCells rest
      .ok (v' :: rest')

/-- Embedding of `Cursor._process_row` (api.py lines 135-145).  The
loop guard `if self.description and idx < len(self.description)` means
a missing (`None`) or empty description appends nothing, and positions
past the description length are dropped; `List.zip` reproduces the
`idx < len(self.description)` truncation. -/
def process_row (desc? : Option (List CursorDescriptionRow)) (row : List Value) : Except PyErr (List Value) :=
  match desc? with
  | none => .ok []
  | some desc => procCells (row.zip desc)

/-- A parsed cluster version, modelling `packaging.version.parse` on
the dotted release strings compared by `get_valid_table_names`. -/
structure Version where
  major : Nat
  minor : Nat
  patch : Nat
deriving DecidableEq

/-- Lexicographic `≥` on parsed versions, modelling the `packaging`
comparison used at api.py line 193. -/
def verGE (a b : Version) : Bool :=
  if a.major ≠ b.major then decide (b.major < a.major)
  else if a.minor ≠ b.minor then decide (b.minor < a.minor)
  else decide (b.patch ≤ a.patch)

/-- One entry of the `es.cat.indices(format="json")` response:
the index name and the already-parsed `int(item["docs.count"])`. -/
structure CatIndex where
  index : String
  docs_count : Int

/-- A SQL endpoint response body: `results.get("rows", [])` and
`results.get("columns")` (absent key modelled as `none`). -/
structure QueryResp where
  rows : List (List Value)
  columns : Option (List ESCol)

/-- Modelled from the spec: the external collaborator operations
(`submitQuery`, `fetchIndexStats`, `fetchClusterVersion`,
`fetchIndexMapping`, `fetchSample`) live in `es.baseapi` and the
`elasticsearch` client, which are outside `src/`; the spec's §6 gives
their shapes.  An `Env` packages the cluster's responses for the one
scenario under consideration: the SQL response for the submitted query,
the cat-indices statistics, the cluster version, and — for the queried
table — its mapping `properties` and the one-document sample
(`hits.total.value` and the first hit's `_source`). -/
structure Env where
  sqlResponse : QueryResp
  catIndices : List CatIndex
  clusterVersion : Version
  mappingProps : List (String × PyDict)
  hitsTotal : Nat
  sampleSource : PyDict

/-- The cursor fields mutated by the embedded methods: `description`
(initially `None` in `BaseCursor`), `_results`, and the closed flag
consulted by `check_closed`. -/
structure CursorState where
  description : Option (List CursorDescriptionRow)
  results : List (List Value)
  closed : Bool

/-- The DataError message of api.py lines 218-220. -/
def missingColumnsMsg : String :=
  "Missing columns field, maybe it's an opendistro sql ep"

/-- Embedding of the real-SQL branch of `Cursor.execute` (api.py lines
212-223): rows are processed against the PRE-call `self.description`
(line 215) before the columns check (line 217); `self._results` and the
new description are only assigned after the check, so any raise leaves
the state unchanged.  The falsy test `if not columns` fires both on an
absent key and on an empty list.  Parameter substitution
(`apply_parameters`, identity when no parameters are passed) and the
HTTP round trip are absorbed into `env.sqlResponse`. -/
def executeSql (env : Env) (st : CursorState) : CursorState × Option PyErr :=
  if st.closed then (st, some .closedError)
  else
    match mapEx (process_row st.description) env.sqlResponse.rows with
    | .error e => (st, some e)
    | .ok rows =>
      match env.sqlResponse.columns with
      | none => (st, some (.dataError missingColumnsMsg))
      | some [] => (st, some (.dataError missingColumnsMsg))
      | some cols =>
          ({ st with
              results := rows
              description := some (get_description_from_columns_with_arrays cols) }, none)

/-- Embedding of `Cursor._get_value_for_col_name` (api.py lines
147-156): the first description entry with the given name selects the
row position; subscripting past the row's end raises IndexError; no
matching description entry returns Python `None`. -/
def get_value_for_col_name (desc : List CursorDescriptionRow) (row : List Value) (name : String) : Except PyErr (Option Value) :=
  match desc.findIdx? (fun c => c.name == name) with
  | none => .ok none
  | some idx =>
    match row[idx]? with
    | some v => .ok (some v)
    | none => .error .indexError

/-- Models the Python `==` between a looked-up row value (possibly
`None`) and a string literal: true exactly when the value is that
string. -/
def valueEqStr (v : Option Value) (s : String) : Bool :=
  match v with
  | some (.str t) => t == s
  | _ => false

/-- The filtering loop of `get_valid_table_view_names` (api.py lines
172-186): a result row is empty when some cat-indices entry matches its
`name` column with a zero document count; a row is kept when it is not
empty and its `type` column equals the filter.  The `name` column is
only read when the cat-indices response is nonempty (the inner `for`
body is what calls it), and the `type` column only when the row was not
found empty — reproducing the evaluation order of the source, so an
IndexError surfaces exactly where the source raises it. -/
def filterValidRows (desc : List CursorDescriptionRow) (cat : List CatIndex) (type_filter : String) : List (List Value) → Except PyErr (List (List Value))
  | [] => .ok []
  | row :: rest => do
      let isEmpty ←
        (match cat with
        | [] => Except.ok false
        | _ :: _ => do
            let nv ← get_value_for_col_name desc row "name"
            Except.ok (cat.any (fun item => valueEqStr nv item.index && decide (item.docs_count = 0))))
      let keep ←
        (if isEmpty then Except.ok false
         else do
           let tv ← get_value_for_col_name desc row "type"
           Except.ok (valueEqStr tv type_filter))
      let rest' ← filterValidRows desc cat type_filter rest
      .ok (if keep then row :: rest' else rest')

/-- Embedding of `Cursor.get_valid_table_view_names` (api.py lines
158-187): it runs `self.execute("SHOW TABLES")` — which always lands in
the real-SQL branch — iterates the resulting rows (cursor iteration in
`baseapi` yields `_results` in order), filters them against the
cat-indices statistics, and finally replaces `self._results`; an
exception inside the loop leaves `_results` as the SHOW TABLES rows.
After a successful `executeSql` the description is always present, so
the `getD []` default is never the taken branch on reachable paths. -/
def get_valid_table_view_names (env : Env) (st : CursorState) (type_filter : String) : CursorState × Option PyErr :=
  match executeSql env st with
  | (st1, some e) => (st1, some e)
  | (st1, none) =>
    match filterValidRows (st1.description.getD []) env.catIndices type_filter st1.results with
    | .error e => (st1, some e)
    | .ok keeps => ({ st1 with results := keeps }, none)

/-- Embedding of `Cursor.get_valid_table_names` (api.py lines 189-195):
the cluster version is read from the info endpoint on every call and
clusters at or above 7.10.0 filter on "TABLE", earlier ones on
"BASE TABLE". -/
def get_valid_table_names (env : Env) (st : CursorState) : CursorState × Option PyErr :=
  if verGE env.clusterVersion ⟨7, 10, 0⟩ then get_valid_table_view_names env st "TABLE"
  else get_valid_table_view_names env st "BASE TABLE"

/-- Embedding of `Cursor.get_valid_view_names` (api.py lines 197-198). -/
def get_valid_view_names (env : Env) (st : CursorState) : CursorState × Option PyErr :=
  get_valid_table_view_names env st "VIEW"

/-- The per-field body of the detection loop of
`Cursor.get_array_type_columns` (api.py lines 239-252): only fields
whose mapping `type` is a string are considered; the sampled value must
be a list; `value[0]` on an empty list raises IndexError (uncaught in
the source, whose `except` clauses only catch transport errors); a dict
first element yields one dot-qualified entry per key of that first
element, anything else yields the single entry `(field, declared
type)`. -/
def fieldEntries (source : PyDict) (field_name : String) (field_mapping : PyDict) : Except PyErr (List (String × String)) :=
  match lookupD field_mapping "type" with
  | some (.str t) =>
    (match lookupD source field_name with
    | some (.list l) =>
      (match l with
      | [] => .error .indexError
      | first :: _ =>
        (match first with
        | .dict d => .ok (d.map (fun kv => (field_name ++ "." ++ kv.1, t)))
        | _ => .ok [(field_name, t)]))
    | _ => .ok [])
  | _ => .ok []

/-- The detection loop of `get_array_type_columns` over the declared
mapping properties in order, accumulating the per-field entries; the
first raised exception aborts the loop. -/
def arrayColumnsOf (source : PyDict) : List (String × PyDict) → Except PyErr (List (String × String))
  | [] => .ok []
  | (fname, fmap) :: rest => do
      let here ← fieldEntries source fname fmap
      let more ← arrayColumnsOf source rest
      .ok (here ++ more)

/-- The entries a single field contributes when no exception occurs
(defaulting the error case to nothing); used to state what the loop
accumulates. -/
def fieldEntriesD (source : PyDict) (p : String × PyDict) : List (String × String) :=
  match fieldEntries source p.1 p.2 with
  | .ok e => e
  | .error _ => []

/-- The two-column description installed by `get_array_type_columns`
(api.py lines 260-263). -/
def arrayColumnsDesc : List CursorDescriptionRow :=
  [{ name := "name", type_code := ESType.STRING, display_size := none,
     internal_size := none, precision := none, scale := none, null_ok := none },
   { name := "type", type_code := ESType.STRING, display_size := none,
     internal_size := none, precision := none, scale := none, null_ok := none }]

/-- Embedding of `Cursor.get_array_type_columns` (api.py lines
225-265): with at least one document the detection loop runs over the
mapping properties against the sampled `_source`; with zero documents
it is skipped entirely.  The description and `_results` assignments sit
after the `try` block, so an uncaught exception from the loop leaves
the state untouched.  Transport failures of the two cluster calls (the
caught `ConnectionError`/`NotFoundError` branches) are collaborator
faults outside this model: the `Env` always carries well-formed
responses. -/
def get_array_type_columns (env : Env) (st : CursorState) (table_name : String) : CursorState × Option PyErr :=
  match (if 0 < env.hitsTotal then arrayColumnsOf env.sampleSource env.mappingProps else .ok []) with
  | .error e => (st, some e)
  | .ok cols =>
    ({ st with
        description := some arrayColumnsDesc
        results := cols.map (fun e => [Value.str e.1, Value.str e.2]) }, none)

/-- The literal regex head of api.py line 208; `re.match` is
case-sensitive, so only this exact casing matches. -/
def showArrayCmd : String := "SHOW ARRAY_COLUMNS FROM "

/-- The captured group of `re.match("SHOW ARRAY_COLUMNS FROM (.*)",
operation)`: the remainder of the statement up to the first newline
(an un-flagged `.` does not cross newlines). -/
def arrayTableNameOf (operation : String) : String :=
  ⟨(operation.data.drop showArrayCmd.data.length).takeWhile (fun c => c != '\n')⟩

/-- Embedding of `Cursor.execute` (api.py lines 200-223).  The
`check_closed` decorator and `custom_sql_to_method_dispatcher` live in
`es.baseapi` (outside `src/`) and are modelled from the spec: the
dispatcher lowercases the statement and looks it up, exactly matched,
in `custom_sql_to_method` (api.py lines 116-119: `"show valid_tables"`
and `"show valid_views"`); `check_closed` raises on a closed cursor.
The `SHOW ARRAY_COLUMNS FROM` pattern match and the fallthrough to the
real-SQL branch are from the source. -/
def execute (env : Env) (st : CursorState) (operation : String) : CursorState × Option PyErr :=
  if st.closed then (st, some .closedError)
  else if pyLower operation = "show valid_tables" then get_valid_table_names env st
  else if pyLower operation = "show valid_views" then get_valid_view_names env st
  else if leadsWith showArrayCmd.data operation.data then
    get_array_type_columns env st (arrayTableNameOf operation)
  else executeSql env st

/-- A store of Python dict objects: object identity made explicit so
that the aliasing behaviour of `dict(item)` is statable.  A reference
is an index into the store. -/
abbrev Store := List PyDict

/-- Dereference a dict object. -/
def storeGet (σ : Store) (r : Nat) : PyDict := σ.getD r []

/-- In-place mutation of the dict object behind a reference. -/
def storeSet (σ : Store) (r : Nat) (d : PyDict) : Store := σ.set r d

/-- Store-level model of the comprehension `[dict(item) for item in
value]` of `_process_array_value` (api.py line 131) when every element
is a dict: each `dict(item)` allocates a fresh object holding the same
entries as the source object, and the output list holds the fresh
references in order. -/
def copy_dicts : Store → List Nat → Store × List Nat
  | σ, [] => (σ, [])
  | σ, r :: rs =>
      let σ1 := σ ++ [storeGet σ r]
      let out := copy_dicts σ1 rs
      (out.1, σ.length :: out.2)

/-- The key sequence of a dict object. -/
def keysOf (d : PyDict) : List String := d.map Prod.fst

/-- A fresh open cursor: `BaseCursor.__init__` leaves `description` as
Python `None` and `_results` empty. -/
def st0 : CursorState :=
  { description := none, results := [], closed := false }

/-- A minimal environment: SQL response with no columns field, no
indices, an empty table. -/
def env0 : Env :=
  { sqlResponse := { rows := [], columns := none }
    catIndices := []
    clusterVersion := ⟨7, 0, 0⟩
    mappingProps := []
    hitsTotal := 0
    sampleSource := [] }

/-- A description row whose type is ARRAY, for rows aligning array
columns. -/
def arrayCol : CursorDescriptionRow :=
  { name := "c", type_code := ESType.ARRAY, display_size := none,
    internal_size := none, precision := none, scale := none, null_ok := none }

/-- A list value whose first element is a dict but whose second is not:
`dict(5)` raises TypeError in the copy comprehension. -/
def badArrayValue : Value := .list [.dict [("a", .int 1)], .int 5]

/-- A cursor that already carries an ARRAY-typed single-column
description from an earlier query. -/
def stArr : CursorState :=
  { description := some [arrayCol], results := [], closed := false }

/-- Environment for the C1 scenario: a real SQL response with one
array-typed column and one row holding a two-element array. -/
def envC1 : Env :=
  { sqlResponse :=
      { rows := [[Value.list [.int 1, .int 2]]]
        columns := some [{ name? := some "a", type? := some "array" }] }
    catIndices := []
    clusterVersion := ⟨7, 0, 0⟩
    mappingProps := []
    hitsTotal := 0
    sampleSource := [] }

/-- Environment for the C3 TypeError corner: response with rows but no
columns field, met by a cursor whose stale description marks the
position ARRAY. -/
def envBadRows : Env :=
  { sqlResponse := { rows := [[badArrayValue]], columns := none }
    catIndices := []
    clusterVersion := ⟨7, 0, 0⟩
    mappingProps := []
    hitsTotal := 0
    sampleSource := [] }

/-- Environment for spec Scenario B: cluster version 7.11.0, SHOW
TABLES returning `orders` (5 docs) and `empty_idx` (0 docs), both of
type TABLE. -/
def envC4 : Env :=
  { sqlResponse :=
      { rows := [[Value.str "orders", Value.str "TABLE"],
                 [Value.str "empty_idx", Value.str "TABLE"]]
        columns := some [{ name? := some "name", type? := some "keyword" },
                         { name? := some "type", type? := some "keyword" }] }
    catIndices := [⟨"orders", 5⟩, ⟨"empty_idx", 0⟩]
    clusterVersion := ⟨7, 11, 0⟩
    mappingProps := []
    hitsTotal := 0
    sampleSource := [] }

/-- Array-detector environment: `tags` declared `keyword`, sampled
value a single-element list. -/
def envC2single : Env :=
  { sqlResponse := { rows := [], columns := none }
    catIndices := []
    clusterVersion := ⟨7, 0, 0⟩
    mappingProps := [("tags", [("type", Value.str "keyword")])]
    hitsTotal := 1
    sampleSource := [("tags", Value.list [.str "a"])] }

/-- Array-detector environment: `tags` declared `keyword`, sampled
value the empty list. -/
def envC2empty : Env :=
  { sqlResponse := { rows := [], columns := none }
    catIndices := []
    clusterVersion := ⟨7, 0, 0⟩
    mappingProps := [("tags", [("type", Value.str "keyword")])]
    hitsTotal := 1
    sampleSource := [("tags", Value.list [])] }

/-- Array-detector environment of spec Scenario A: `tags` declared
`keyword`, sampled value a two-element list of strings. -/
def envC2tags : Env :=
  { sqlResponse := { rows := [], columns := none }
    catIndices := []
    clusterVersion := ⟨7, 0, 0⟩
    mappingProps := [("tags", [("type", Value.str "keyword")])]
    hitsTotal := 1
    sampleSource := [("tags", Value.list [.str "a", .str "b"])] }

/-- Inversion of a successful `Except` bind. -/
theorem bind_ok {α β : Type} {x : Except PyErr α} {f : α → Except PyErr β} {b : β}
    (h : (x >>= f) = .ok b) : ∃ a, x = .ok a ∧ f a = .ok b := by
  cases x with
  | error e => simp [Bind.bind, Except.bind] at h
  | ok a => exact ⟨a, rfl, by simpa [Bind.bind, Except.bind] using h⟩

/-- A successful cell pass preserves the number of positions. -/
theorem procCells_ok_length (cells : List (Value × CursorDescriptionRow)) :
    ∀ out : List Value, procCells cells = .ok out → out.length = cells.length := by
  induction cells with
  | nil =>
      intro out h
      simp only [procCells] at h
      injection h with h
      rw [← h]
      rfl
  | cons vc rest ih =>
      intro out h
      obtain ⟨v, c⟩ := vc
      simp only [procCells] at h
      by_cases hc : c.type_code = ESType.ARRAY
      · rw [if_pos hc] at h
        obtain ⟨v', _, h⟩ := bind_ok h
        obtain ⟨rest', hr, h⟩ := bind_ok h
        injection h with h
        rw [← h]
        simp [ih rest' hr]
      · rw [if_neg hc] at h
        obtain ⟨v', _, h⟩ := bind_ok h
        obtain ⟨rest', hr, h⟩ := bind_ok h
        injection h with h
        rw [← h]
        simp [ih rest' hr]

/-- A successful cell pass is the identity at non-ARRAY positions. -/
theorem procCells_ok_get (cells : List (Value × CursorDescriptionRow)) :
    ∀ (out : List Value) (i : Nat) (v : Value) (c : CursorDescriptionRow),
      procCells cells = .ok out → cells[i]? = some (v, c) →
      c.type_code ≠ ESType.ARRAY → out[i]? = some v := by
  induction cells with
  | nil =>
      intro out i v c _ hc _
      simp at hc
  | cons vc rest ih =>
      intro out i v c h hc hna
      obtain ⟨w, d⟩ := vc
      simp only [procCells] at h
      by_cases hd : d.type_code = ESType.ARRAY
      · rw [if_pos hd] at h
        obtain ⟨v', _, h⟩ := bind_ok h
        obtain ⟨rest', hr, h⟩ := bind_ok h
        injection h with h
        subst h
        cases i with
        | zero =>
            simp at hc
            obtain ⟨hw, hd2⟩ := hc
            rw [hd2] at hd
            exact absurd hd hna
        | succ n =>
            simp at hc ⊢
            exact ih rest' n v c hr hc hna
      · rw [if_neg hd] at h
        obtain ⟨v', hv, h⟩ := bind_ok h
        obtain ⟨rest', hr, h⟩ := bind_ok h
        injection h with h
        subst h
        cases i with
        | zero =>
            simp at hc
            obtain ⟨hw, hd2⟩ := hc
            injection hv with hv
            simp [← hv, hw]
        | succ n =>
            simp at hc ⊢
            exact ih rest' n v c hr hc hna

/-- Positional lookup in a zip of two lists. -/
theorem zip_get? {α β : Type} : ∀ (l1 : List α) (l2 : List β) (i : Nat) (a : α) (b : β),
    l1[i]? = some a → l2[i]? = some b → (l1.zip l2)[i]? = some (a, b) := by
  intro l1
  induction l1 with
  | nil => intro l2 i a b h; simp at h
  | cons x xs ih =>
      intro l2 i a b h1 h2
      cases l2 with
      | nil => simp at h2
      | cons y ys =>
          cases i with
          | zero =>
              simp at h1 h2
              simp [h1, h2]
          | succ n =>
              simp at h1 h2 ⊢
              exact ih ys n a b h1 h2

/-- The description entry the Type Mapper produces for a column whose
reported type is the string "array". -/
def rowA : CursorDescriptionRow :=
  { name := "a", type_code := ESType.ARRAY, display_size := none,
    internal_size := none, precision := none, scale := none, null_ok := none }

/-- A non-array description entry. -/
def strCol : CursorDescriptionRow :=
  { name := "s", type_code := ESType.STRING, display_size := none,
    internal_size := none, precision := none, scale := none, null_ok := none }

/-- The cursor state after a successful array-columns call on a fresh
cursor over an empty index. -/
def stArrayDesc : CursorState :=
  { description := some arrayColumnsDesc, results := [], closed := false }

/-- C9: the Type Mapper maps every raw type string to ARRAY whenever the
isArray flag is true — array-ness takes priority over the element type. -/
theorem claim_C9 (rawType : String) : ESType.from_es_type rawType true = ESType.ARRAY := rfl

/-- C10 (amended): whenever row processing returns, the result's length
is the minimum of the row length and the description length, and with no
description set the result is always the empty tuple.  (Row processing
can instead raise: see the counterexample.) -/
theorem claim_C10 :
    (∀ (desc : List CursorDescriptionRow) (row out : List Value),
        process_row (some desc) row = .ok out → out.length = min row.length desc.length)
    ∧ ∀ row : List Value, process_row none row = .ok [] := by
  constructor
  · intro desc row out h
    have hl := procCells_ok_length (row.zip desc) out h
    simpa [List.length_zip] using hl
  · intro row
    rfl

/-- C10 counterexample: at an ARRAY-typed position holding a sequence
whose first element is a dict but whose second is not, row processing
raises TypeError from `dict(5)` instead of returning a tuple of length
min(1, 1) = 1, refuting the claim that every input row yields a tuple. -/
theorem claim_C10_counterexample :
    process_row (some [arrayCol]) [badArrayValue] = Except.error PyErr.typeError := rfl

/-- C10 witness: a successful concrete run of the amended statement. -/
theorem claim_C10_witness :
    process_row (some [arrayCol]) [Value.int 3, Value.int 4] = .ok [Value.int 3]
    ∧ ([Value.int 3] : List Value).length
        = min ([Value.int 3, Value.int 4] : List Value).length [arrayCol].length :=
  ⟨rfl, claim_C10.1 [arrayCol] [Value.int 3, Value.int 4] [Value.int 3] rfl⟩

/-- C7: on a row and description of equal length, a returning row pass
leaves every position whose description entry is not ARRAY-typed
unchanged. -/
theorem claim_C7 (desc : List CursorDescriptionRow) (row out : List Value) (i : Nat)
    (c : CursorDescriptionRow)
    (hlen : row.length = desc.length)
    (h : process_row (some desc) row = .ok out)
    (hc : desc[i]? = some c)
    (hna : c.type_code ≠ ESType.ARRAY) :
    out[i]? = row[i]? := by
  have hi : i < desc.length := by
    by_contra hge
    push_neg at hge
    rw [List.getElem?_eq_none hge] at hc
    cases hc
  have hir : i < row.length := by rw [hlen]; exact hi
  have hv : row[i]? = some row[i] := List.getElem?_eq_getElem hir
  have hz := zip_get? row desc i row[i] c hv hc
  rw [hv]
  exact procCells_ok_get (row.zip desc) out i row[i] c h hz hna

/-- C7 witness: concrete two-column row with an ARRAY column at
position 0 and a STRING column at position 1. -/
theorem claim_C7_witness :
    process_row (some [arrayCol, strCol]) [Value.int 9, Value.str "x"]
      = .ok [Value.int 9, Value.str "x"]
    ∧ ([Value.int 9, Value.str "x"] : List Value)[1]?
        = ([Value.int 9, Value.str "x"] : List Value)[1]? :=
  ⟨rfl, claim_C7 [arrayCol, strCol] [Value.int 9, Value.str "x"]
      [Value.int 9, Value.str "x"] 1 strCol rfl rfl rfl (by decide)⟩

/-- C8: on an index with zero documents the array detector succeeds,
installs the two-column name/type description and publishes no rows. -/
theorem claim_C8 (env : Env) (st : CursorState) (tn : String) (h : env.hitsTotal = 0) :
    get_array_type_columns env st tn =
      ({ st with description := some arrayColumnsDesc, results := [] }, none) := by
  simp [get_array_type_columns, h]

/-- C8 witness: the empty environment has zero documents. -/
theorem claim_C8_witness :
    get_array_type_columns env0 st0 "empty_idx" = (stArrayDesc, none) :=
  claim_C8 env0 st0 "empty_idx" rfl

/-- C1 evaluation at the failing input: a fresh cursor executes a real
SQL statement whose response has one array-typed column and the row
[[1, 2]].  The published description is correctly built by the Type
Mapper, but the published rows are the result of processing against the
stale pre-call description (None), i.e. every row collapses to the
empty tuple — while the Row Processor aligned against the newly built
description would have returned the row intact. -/
theorem claim_C1 :
    execute envC1 st0 "SELECT a FROM t" =
      ({ description := some [rowA], results := [[]], closed := false }, none)
    ∧ process_row (some [rowA]) [Value.list [.int 1, .int 2]]
        = .ok [Value.list [.int 1, .int 2]] :=
  ⟨rfl, rfl⟩

/-- C4 evaluation at spec Scenario B: cluster 7.11.0, `orders` with 5
docs and `empty_idx` with 0 docs.  Because the SHOW TABLES rows were
flattened to empty tuples by the stale-description row processing, the
filtering loop's column lookup raises IndexError instead of returning
the single `orders` row. -/
theorem claim_C4 :
    (execute envC4 st0 "SHOW VALID_TABLES").2 = some PyErr.indexError
    ∧ (execute envC4 st0 "SHOW VALID_TABLES").1.results = [[], []] :=
  ⟨rfl, rfl⟩

/-- C3 counterexample: a response that omits `columns` does not always
raise DataError — rows are processed against the stale description
first (api.py line 215 precedes the check at line 217), and a
pre-existing ARRAY column aligned with a malformed sequence raises
TypeError before the columns check runs.  The state is still unchanged. -/
theorem claim_C3_counterexample :
    execute envBadRows stArr "SELECT c FROM t" = (stArr, some PyErr.typeError)
    ∧ some PyErr.typeError ≠ some (PyErr.dataError missingColumnsMsg) :=
  ⟨rfl, by decide⟩

/-- C3 (amended): for a real SQL statement whose response omits the
columns field, provided processing the response rows against the
pre-call description does not itself raise, execute raises a DataError
whose message mentions "Missing columns field" and the cursor state is
returned unchanged. -/
theorem claim_C3 (env : Env) (st : CursorState) (op : String) (rows : List (List Value))
    (hcl : st.closed = false)
    (h1 : pyLower op ≠ "show valid_tables")
    (h2 : pyLower op ≠ "show valid_views")
    (h3 : leadsWith showArrayCmd.data op.data = false)
    (h4 : env.sqlResponse.columns = none)
    (h5 : mapEx (process_row st.description) env.sqlResponse.rows = .ok rows) :
    execute env st op = (st, some (PyErr.dataError missingColumnsMsg))
    ∧ strContains missingColumnsMsg "Missing columns field" = true := by
  refine ⟨?_, rfl⟩
  simp [execute, executeSql, hcl, h1, h2, h3, h4, h5]

/-- C3 witness: a plain SELECT against a columns-less response on a
fresh cursor. -/
theorem claim_C3_witness :
    execute env0 st0 "SELECT 1" = (st0, some (PyErr.dataError missingColumnsMsg))
    ∧ strContains missingColumnsMsg "Missing columns field" = true :=
  claim_C3 env0 st0 "SELECT 1" [] rfl (by decide) (by decide) rfl rfl rfl

/-- C5 counterexample: the lowercase casing of the array-columns
pseudo-statement is NOT dispatched to the metadata logic — it is
forwarded to the SQL endpoint (observable: it yields the SQL branch's
DataError on a columns-less response), while the uppercase casing is
dispatched (observable: it installs the two-column metadata
description and no error). -/
theorem claim_C5_counterexample :
    execute env0 st0 "show array_columns from tbl"
      = (st0, some (PyErr.dataError missingColumnsMsg))
    ∧ execute env0 st0 "SHOW ARRAY_COLUMNS FROM tbl" = (stArrayDesc, none) :=
  ⟨rfl, rfl⟩

/-- C5 (amended): SHOW VALID_TABLES and SHOW VALID_VIEWS are recognized
case-insensitively (the dispatcher lowercases the statement before the
exact-match lookup), but SHOW ARRAY_COLUMNS FROM is matched by a
case-sensitive pattern: only statements literally starting with the
uppercase keywords reach the array detector; other casings fall through
to the SQL endpoint. -/
theorem claim_C5 (env : Env) (st : CursorState) (op : String) (hcl : st.closed = false) :
    (pyLower op = "show valid_tables" → execute env st op = get_valid_table_names env st)
    ∧ (pyLower op = "show valid_views" → execute env st op = get_valid_view_names env st)
    ∧ (pyLower op ≠ "show valid_tables" → pyLower op ≠ "show valid_views" →
        leadsWith showArrayCmd.data op.data = true →
        execute env st op = get_array_type_columns env st (arrayTableNameOf op)) := by
  refine ⟨?_, ?_, ?_⟩
  · intro h
    simp [execute, hcl, h]
  · intro h
    by_cases h1 : pyLower op = "show valid_tables"
    · rw [h1] at h
      exact absurd h (by decide)
    · simp [execute, hcl, h1, h]
  · intro h1 h2 h3
    simp [execute, hcl, h1, h2, h3]

/-- C5 witness: a mixed-case VALID_TABLES statement dispatches to the
table-listing logic. -/
theorem claim_C5_witness :
    execute env0 st0 "ShOw VaLiD_tAbLeS" = get_valid_table_names env0 st0 :=
  (claim_C5 env0 st0 "ShOw VaLiD_tAbLeS" rfl).1 (by decide)

/-- Appending fresh objects to the store does not change existing
references. -/
theorem storeGet_append_lt (σ τ : Store) (r : Nat) (h : r < σ.length) :
    storeGet (σ ++ τ) r = storeGet σ r := by
  simp [storeGet, List.getD_eq_getElem?_getD, List.getElem?_append, h]

/-- Dereferencing the appended block. -/
theorem storeGet_append_add (σ τ : Store) (i : Nat) :
    storeGet (σ ++ τ) (σ.length + i) = storeGet τ i := by
  simp [storeGet, List.getD_eq_getElem?_getD,
    List.getElem?_append_right (Nat.le_add_right σ.length i)]

/-- Mutating one object leaves every other reference unchanged. -/
theorem storeGet_set_ne (σ : Store) (j r : Nat) (d : PyDict) (h : j ≠ r) :
    storeGet (storeSet σ j d) r = storeGet σ r := by
  simp [storeGet, storeSet, List.getD_eq_getElem?_getD, List.getElem?_set_ne h]

/-- Closed form of the copy comprehension on valid references: the
store grows by one block of copies and the output references are the
consecutive fresh indices. -/
theorem copy_dicts_spec (rs : List Nat) : ∀ σ : Store, (∀ r ∈ rs, r < σ.length) →
    copy_dicts σ rs =
      (σ ++ rs.map (fun r => storeGet σ r), List.range' σ.length rs.length 1) := by
  induction rs with
  | nil =>
      intro σ _
      simp [copy_dicts, List.range']
  | cons r rs ih =>
      intro σ h
      have hr : r < σ.length := h r (List.mem_cons_self r rs)
      have hrs : ∀ x ∈ rs, x < (σ ++ [storeGet σ r]).length := by
        intro x hx
        have hx2 := h x (List.mem_cons_of_mem r hx)
        simp
        omega
      simp only [copy_dicts]
      rw [ih (σ ++ [storeGet σ r]) hrs]
      have hmap : rs.map (fun x => storeGet (σ ++ [storeGet σ r]) x)
          = rs.map (fun x => storeGet σ x) :=
        List.map_congr_left (fun x hx =>
          storeGet_append_lt σ [storeGet σ r] x (h x (List.mem_cons_of_mem r hx)))
      simp only [Prod.mk.injEq]
      constructor
      · rw [hmap]
        simp [List.append_assoc]
      · simp [List.length_append, List.range'_succ]

/-- Dereferencing position i of the copy block. -/
theorem storeGet_map_block (σ : Store) (rs : List Nat) (i : Nat) (hi : i < rs.length) :
    storeGet (rs.map (fun r => storeGet σ r)) i = storeGet σ (rs.getD i 0) := by
  rw [storeGet, List.getD_eq_getElem?_getD, List.getElem?_map, List.getElem?_eq_getElem hi,
    List.getD_eq_getElem?_getD, List.getElem?_eq_getElem hi]
  rfl

/-- C6: over an explicit object store, the copy comprehension of
`_process_array_value` on a sequence of dict references returns a
sequence of the same length whose i-th element holds a dict with the
same entries (hence the same keys) as the i-th input element, and every
output reference is a fresh object: overwriting any output object
leaves the dict behind every input reference unchanged. -/
theorem claim_C6 (σ : Store) (rs : List Nat) (h : ∀ r ∈ rs, r < σ.length) :
    ((copy_dicts σ rs).2.length = rs.length)
    ∧ (∀ i : Nat, i < rs.length →
        storeGet (copy_dicts σ rs).1 ((copy_dicts σ rs).2.getD i 0)
            = storeGet σ (rs.getD i 0)
        ∧ keysOf (storeGet (copy_dicts σ rs).1 ((copy_dicts σ rs).2.getD i 0))
            = keysOf (storeGet σ (rs.getD i 0)))
    ∧ (∀ j : Nat, j ∈ (copy_dicts σ rs).2 → ∀ (d : PyDict) (i : Nat), i < rs.length →
        storeGet (storeSet (copy_dicts σ rs).1 j d) (rs.getD i 0)
            = storeGet σ (rs.getD i 0)) := by
  rw [copy_dicts_spec rs σ h]
  have hvalid : ∀ i : Nat, i < rs.length → rs.getD i 0 < σ.length := by
    intro i hi
    rw [List.getD_eq_getElem?_getD, List.getElem?_eq_getElem hi]
    exact h rs[i] (List.getElem_mem hi)
  refine ⟨by simp [List.length_range'], ?_, ?_⟩
  · intro i hi
    have href : (List.range' σ.length rs.length 1).getD i 0 = σ.length + i := by
      rw [List.getD_eq_getElem?_getD, List.getElem?_range' _ _ hi]
      simp
    have key : storeGet (σ ++ rs.map (fun r => storeGet σ r)) (σ.length + i)
        = storeGet σ (rs.getD i 0) := by
      rw [storeGet_append_add, storeGet_map_block σ rs i hi]
    rw [href]
    exact ⟨key, congrArg keysOf key⟩
  · intro j hj d i hi
    have hjge : σ.length ≤ j := by
      rw [List.mem_range'] at hj
      obtain ⟨k, _, hk⟩ := hj
      omega
    have hlt := hvalid i hi
    have hne : j ≠ rs.getD i 0 := by omega
    rw [storeGet_set_ne _ _ _ _ hne, storeGet_append_lt _ _ _ hlt]

/-- A one-object store for the C6 witness. -/
def store0 : Store := [[("k", Value.str "v")]]

/-- C6 witness: copying the single dict reference 0 yields one fresh
object with the same content. -/
theorem claim_C6_witness :
    storeGet (copy_dicts store0 [0]).1 ((copy_dicts store0 [0]).2.getD 0 0)
      = storeGet store0 0
    ∧ (copy_dicts store0 [0]).2.length = 1 :=
  ⟨((claim_C6 store0 [0] (by intro r hr; rw [List.mem_singleton] at hr; subst hr; decide)).2.1
      0 (by decide)).1,
    (claim_C6 store0 [0] (by intro r hr; rw [List.mem_singleton] at hr; subst hr; decide)).1⟩

/-- Per-field behaviour of the detection loop body under the
non-degeneracy condition (no empty-list sample value for a string-typed
field, and no empty dict as first element): the field contributes
entries exactly when its mapping type is a plain string and its sampled
value is a nonempty list. -/
theorem fieldEntries_ok (source : PyDict) (f : String) (m : PyDict)
    (hyp : ∀ (t : String) (l : List Value), lookupD m "type" = some (.str t) →
        lookupD source f = some (.list l) →
        l ≠ [] ∧ ∀ d : PyDict, l.head? = some (.dict d) → d ≠ []) :
    fieldEntries source f m = .ok (fieldEntriesD source (f, m))
    ∧ (fieldEntriesD source (f, m) ≠ [] ↔
        (∃ t, lookupD m "type" = some (.str t))
        ∧ ∃ l, lookupD source f = some (.list l) ∧ l ≠ []) := by
  cases him : lookupD m "type" with
  | none =>
      have hval : fieldEntries source f m = .ok [] := by simp [fieldEntries, him]
      simp [fieldEntriesD, hval, him]
  | some v =>
    cases v with
    | null =>
        have hval : fieldEntries source f m = .ok [] := by simp [fieldEntries, him]
        simp [fieldEntriesD, hval, him]
    | bool b =>
        have hval : fieldEntries source f m = .ok [] := by simp [fieldEntries, him]
        simp [fieldEntriesD, hval, him]
    | int n =>
        have hval : fieldEntries source f m = .ok [] := by simp [fieldEntries, him]
        simp [fieldEntriesD, hval, him]
    | dict d =>
        have hval : fieldEntries source f m = .ok [] := by simp [fieldEntries, him]
        simp [fieldEntriesD, hval, him]
    | list l =>
        have hval : fieldEntries source f m = .ok [] := by simp [fieldEntries, him]
        simp [fieldEntriesD, hval, him]
    | str t =>
      cases hsrc : lookupD source f with
      | none =>
          have hval : fieldEntries source f m = .ok [] := by simp [fieldEntries, him, hsrc]
          simp [fieldEntriesD, hval, him, hsrc]
      | some w =>
        cases w with
        | null =>
            have hval : fieldEntries source f m = .ok [] := by simp [fieldEntries, him, hsrc]
            simp [fieldEntriesD, hval, him, hsrc]
        | bool b =>
            have hval : fieldEntries source f m = .ok [] := by simp [fieldEntries, him, hsrc]
            simp [fieldEntriesD, hval, him, hsrc]
        | int n =>
            have hval : fieldEntries source f m = .ok [] := by simp [fieldEntries, him, hsrc]
            simp [fieldEntriesD, hval, him, hsrc]
        | str s =>
            have hval : fieldEntries source f m = .ok [] := by simp [fieldEntries, him, hsrc]
            simp [fieldEntriesD, hval, him, hsrc]
        | dict d =>
            have hval : fieldEntries source f m = .ok [] := by simp [fieldEntries, him, hsrc]
            simp [fieldEntriesD, hval, him, hsrc]
        | list l =>
          cases l with
          | nil => exact absurd rfl (hyp t [] him hsrc).1
          | cons first rest =>
            cases first with
            | dict d =>
                have hd : d ≠ [] := (hyp t (Value.dict d :: rest) him hsrc).2 d (by simp)
                have hval : fieldEntries source f m
                    = .ok (d.map (fun kv => (f ++ "." ++ kv.1, t))) := by
                  simp [fieldEntries, him, hsrc]
                simp [fieldEntriesD, hval, him, hsrc, hd]
            | null =>
                have hval : fieldEntries source f m = .ok [(f, t)] := by
                  simp [fieldEntries, him, hsrc]
                simp [fieldEntriesD, hval, him, hsrc]
            | bool b =>
                have hval : fieldEntries source f m = .ok [(f, t)] := by
                  simp [fieldEntries, him, hsrc]
                simp [fieldEntriesD, hval, him, hsrc]
            | int n =>
                have hval : fieldEntries source f m = .ok [(f, t)] := by
                  simp [fieldEntries, him, hsrc]
                simp [fieldEntriesD, hval, him, hsrc]
            | str s =>
                have hval : fieldEntries source f m = .ok [(f, t)] := by
                  simp [fieldEntries, him, hsrc]
                simp [fieldEntriesD, hval, him, hsrc]
            | list l2 =>
                have hval : fieldEntries source f m = .ok [(f, t)] := by
                  simp [fieldEntries, him, hsrc]
                simp [fieldEntriesD, hval, him, hsrc]

/-- The detection loop accumulates, in declaration order, the entries
of every field, when no field raises. -/
theorem arrayColumnsOf_ok (source : PyDict) (props : List (String × PyDict))
    (h : ∀ p ∈ props, fieldEntries source p.1 p.2 = .ok (fieldEntriesD source p)) :
    arrayColumnsOf source props = .ok ((props.map (fieldEntriesD source)).flatten) := by
  induction props with
  | nil => simp [arrayColumnsOf]
  | cons p rest ih =>
      obtain ⟨f, m⟩ := p
      have h1 : fieldEntries source f m = .ok (fieldEntriesD source (f, m)) :=
        h (f, m) (List.mem_cons_self _ _)
      have h2 := ih (fun q hq => h q (List.mem_cons_of_mem _ hq))
      simp only [arrayColumnsOf]
      rw [h1, h2]
      simp [Bind.bind, Except.bind]

/-- C2 (amended): on an index with at least one document, provided no
string-typed field's sampled value is an empty list (which would raise
an uncaught IndexError) and no sampled list starts with an empty dict,
the array detector succeeds, publishes one row per accumulated entry in
field-declaration order, and a field contributes entries exactly when
its mapping type is a plain string AND its sampled value is a
nonempty list — single-element lists included. -/
theorem claim_C2 (env : Env) (st : CursorState) (tn : String)
    (htot : 0 < env.hitsTotal)
    (hyp : ∀ (f : String) (m : PyDict) (t : String) (l : List Value),
        (f, m) ∈ env.mappingProps → lookupD m "type" = some (.str t) →
        lookupD env.sampleSource f = some (.list l) →
        l ≠ [] ∧ ∀ d : PyDict, l.head? = some (.dict d) → d ≠ []) :
    get_array_type_columns env st tn =
      ({ st with
          description := some arrayColumnsDesc
          results := ((env.mappingProps.map (fieldEntriesD env.sampleSource)).flatten).map
            (fun e => [Value.str e.1, Value.str e.2]) }, none)
    ∧ ∀ (f : String) (m : PyDict), (f, m) ∈ env.mappingProps →
        fieldEntries env.sampleSource f m = .ok (fieldEntriesD env.sampleSource (f, m))
        ∧ (fieldEntriesD env.sampleSource (f, m) ≠ [] ↔
            (∃ t, lookupD m "type" = some (.str t))
            ∧ ∃ l, lookupD env.sampleSource f = some (.list l) ∧ l ≠ []) := by
  have hfe : ∀ p ∈ env.mappingProps,
      fieldEntries env.sampleSource p.1 p.2 = .ok (fieldEntriesD env.sampleSource p) := by
    intro p hp
    refine (fieldEntries_ok env.sampleSource p.1 p.2 ?_).1
    intro t l hty hsrc
    exact hyp p.1 p.2 t l (by rw [Prod.mk.eta]; exact hp) hty hsrc
  constructor
  · have ha := arrayColumnsOf_ok env.sampleSource env.mappingProps hfe
    simp [get_array_type_columns, htot, ha]
  · intro f m hm
    exact fieldEntries_ok env.sampleSource f m (fun t l => hyp f m t l hm)

/-- C2 counterexample: a string-typed field whose sampled value is a
SINGLE-element list IS reported (the source only tests
`isinstance(value, list)`, never the length), and a string-typed field
whose sampled value is the EMPTY list makes the call raise IndexError
(`value[0]`) instead of succeeding — refuting both the multi-element
condition and the no-failure boundary of the claim. -/
theorem claim_C2_counterexample :
    get_array_type_columns envC2single st0 "tags_idx" =
      ({ stArrayDesc with results := [[Value.str "tags", Value.str "keyword"]] }, none)
    ∧ get_array_type_columns envC2empty st0 "tags_idx" = (st0, some PyErr.indexError) :=
  ⟨rfl, rfl⟩

/-- C2 witness: spec Scenario A — `tags` declared `keyword` with a
two-element sampled list yields the single entry (tags, keyword). -/
theorem claim_C2_witness :
    get_array_type_columns envC2tags st0 "orders" =
      ({ stArrayDesc with results := [[Value.str "tags", Value.str "keyword"]] }, none) :=
  (claim_C2 envC2tags st0 "orders" (by decide) (by
      intro f m t l hm hty hsrc
      simp only [envC2tags] at hm
      rw [List.mem_singleton, Prod.mk.injEq] at hm
      obtain ⟨hf, hmm⟩ := hm
      subst hf
      subst hmm
      simp only [envC2tags, lookupD] at hsrc
      simp at hsrc
      constructor
      · rw [← hsrc]
        simp
      · intro d hd
        rw [← hsrc] at hd
        simp at hd)).1
